import Mathlib

/-!
Shallow embedding of the FAO-56 radiation / evapotranspiration core of the
Metio repository and proofs about it.

Embedded source files:
* src/met/fao.py              (namespace `fao`)
* src/utils/polygon_met.py    (namespace `polygon_met`)
* src/met/utils/wudr_analysis.py (namespace `wudr_analysis`)
* src/met/agrimet.py          (namespace `agrimet`)

Floating-point numbers are modelled by real numbers.  For the claims about
NaN propagation a second, NaN-aware semantics over `Option ℝ` is provided
(`none` models an IEEE NaN), mirroring the same source lines.
-/

open Real

noncomputable section

namespace fao

/-- Solar constant [MJ m-2 min-1] (src/met/fao.py line 14). -/
def SOLAR_CONSTANT : ℝ := 0.0820

/-- Stefan Boltzmann constant [MJ K-4 m-2 day-1] (src/met/fao.py line 17). -/
def STEFAN_BOLTZMANN_CONSTANT : ℝ := 0.000000004903

/-- Actual vapour pressure from minimum temperature [Kelvin in, kPa out],
FAO eq. 48 (src/met/fao.py, `avp_from_tmin`). -/
def avp_from_tmin (tmin : ℝ) : ℝ :=
  let t_min_c := tmin - 273.15
  0.611 * exp ((17.27 * t_min_c) / (t_min_c + 237.3))

/-- Solar declination [radians] from day of the year, FAO eq. 24
(src/met/fao.py, `sol_dec`). -/
def sol_dec (day_of_year : ℝ) : ℝ :=
  0.409 * sin ((2.0 * π / 365.0) * day_of_year - 1.39)

/-- Sunset hour angle [radians], FAO eq. 25 (src/met/fao.py,
`sunset_hour_angle`).  The cosine is clamped into [-1, 1] before `arccos`. -/
def sunset_hour_angle (latitude sol_dec : ℝ) : ℝ :=
  let cos_sha := -tan latitude * tan sol_dec
  arccos (min (max cos_sha (-1.0)) 1.0)

/-- Daily extraterrestrial radiation [MJ m-2 day-1], FAO eq. 21
(src/met/fao.py, `et_rad`). -/
def et_rad (latitude sol_dec sha ird : ℝ) : ℝ :=
  let tmp1 := (24.0 * 60.0) / π
  let tmp2 := sha * sin latitude * sin sol_dec
  let tmp3 := cos latitude * cos sol_dec * sin sha
  tmp1 * SOLAR_CONSTANT * ird * (tmp2 + tmp3)

/-- Clear sky radiation from altitude and extraterrestrial radiation,
FAO eq. 37 (src/met/fao.py, `cs_rad`). -/
def cs_rad (altitude et_rad : ℝ) : ℝ :=
  (0.00002 * altitude + 0.75) * et_rad

/-- Inverse relative earth-sun distance, FAO eq. 23 (src/met/fao.py,
`inv_rel_dist_earth_sun`). -/
def inv_rel_dist_earth_sun (day_of_year : ℝ) : ℝ :=
  1 + 0.033 * cos ((2.0 * π / 365.0) * day_of_year)

/-- Hargreaves estimate of incoming solar radiation from the temperature
range, FAO eq. 50 (src/met/fao.py, `sol_rad_from_t`); the result is
constrained by the clear sky radiation. -/
def sol_rad_from_t (et_rad cs_rad tmin tmax : ℝ) (coastal : Bool) : ℝ :=
  let adj : ℝ := if coastal then 0.19 else 0.16
  let sol_rad := adj * sqrt (tmax - tmin) * et_rad
  min sol_rad cs_rad

/-- Net outgoing longwave radiation, FAO eq. 39 (src/met/fao.py,
`net_out_lw_rad`). -/
def net_out_lw_rad (tmin tmax sol_rad cs_rad avp : ℝ) : ℝ :=
  let tmp1 := STEFAN_BOLTZMANN_CONSTANT * ((tmax ^ 4 + tmin ^ 4) / 2)
  let tmp2 := 0.34 - 0.14 * sqrt avp
  let tmp3 := 1.35 * (sol_rad / cs_rad) - 0.35
  tmp1 * tmp2 * tmp3

/-- Aggregated net longwave radiation chain (src/met/fao.py,
`net_lw_radiation`). -/
def net_lw_radiation (tmin tmax doy elevation lat : ℝ) : ℝ :=
  let avp := avp_from_tmin tmin
  let inv_esun_dist := inv_rel_dist_earth_sun doy
  let sol_decl := sol_dec doy
  let sunset_hr_ang := sunset_hour_angle lat sol_decl
  let ext_rad := et_rad lat sol_decl sunset_hr_ang inv_esun_dist
  let clear_sky_rad := cs_rad elevation ext_rad
  let solar_rad := sol_rad_from_t ext_rad clear_sky_rad tmin tmax false
  net_out_lw_rad tmin tmax solar_rad clear_sky_rad avp

/-- Aggregated net shortwave radiation chain (src/met/fao.py,
`net_sw_radiation`). -/
def net_sw_radiation (elevation albedo doy lat : ℝ) : ℝ :=
  let inv_esun_dist := inv_rel_dist_earth_sun doy
  let sol_decl := sol_dec doy
  let sunset_hr_ang := sunset_hour_angle lat sol_decl
  let ext_rad := et_rad lat sol_decl sunset_hr_ang inv_esun_dist
  let rs := (0.75 + 2e-05 * elevation) * ext_rad
  let rns := (1 - albedo) * rs
  rns

/-- Net radiation (src/met/fao.py, `get_net_radiation`). -/
def get_net_radiation (tmin tmax doy elevation lat albedo : ℝ) : ℝ :=
  let net_lw := net_lw_radiation tmin tmax doy elevation lat
  let net_sw := net_sw_radiation elevation albedo doy lat
  net_sw - net_lw

/-- Extraterrestrial radiation as composed inside `net_sw_radiation` and
`net_lw_radiation`: `et_rad` applied to `sol_dec`, `sunset_hour_angle` and
`inv_rel_dist_earth_sun` of the same day. -/
def extraterrestrial_radiation (lat doy : ℝ) : ℝ :=
  et_rad lat (sol_dec doy) (sunset_hour_angle lat (sol_dec doy))
    (inv_rel_dist_earth_sun doy)

/-- Cloudiness correction factor, the local `tmp3` of `net_out_lw_rad`. -/
def lw_cloud_factor (sol_rad cs_rad : ℝ) : ℝ :=
  1.35 * (sol_rad / cs_rad) - 0.35

/-- Stefan-Boltzmann term times the humidity factor, the local
`tmp1 * tmp2` of `net_out_lw_rad`. -/
def lw_stefan_humidity (tmin tmax avp : ℝ) : ℝ :=
  STEFAN_BOLTZMANN_CONSTANT * ((tmax ^ 4 + tmin ^ 4) / 2) *
    (0.34 - 0.14 * sqrt avp)

lemma net_out_lw_rad_eq (tmin tmax sol_rad cs_rad avp : ℝ) :
    net_out_lw_rad tmin tmax sol_rad cs_rad avp =
      lw_stefan_humidity tmin tmax avp * lw_cloud_factor sol_rad cs_rad := rfl

/-- NaN-aware square root over `Option ℝ`: `none` models an IEEE NaN.
`numpy.sqrt` yields NaN on a negative argument, and every arithmetic
operation of the chain propagates a NaN operand. -/
def nan_sqrt (x : ℝ) : Option ℝ :=
  if x < 0 then none else some (sqrt x)

/-- `sol_rad_from_t` (src/met/fao.py lines 210-251) in the NaN-propagating
semantics: `numpy.minimum` returns NaN when an operand is NaN. -/
def sol_rad_from_t_nan (et_rad cs_rad tmin tmax : ℝ) (coastal : Bool) :
    Option ℝ :=
  let adj : ℝ := if coastal then 0.19 else 0.16
  (nan_sqrt (tmax - tmin)).map fun s => min (adj * s * et_rad) cs_rad

/-- `net_out_lw_rad` in the NaN-propagating semantics: a NaN solar
radiation makes the whole product NaN. -/
def net_out_lw_rad_nan (tmin tmax : ℝ) (sol_rad : Option ℝ)
    (cs_rad avp : ℝ) : Option ℝ :=
  sol_rad.map fun sr =>
    STEFAN_BOLTZMANN_CONSTANT * ((tmax ^ 4 + tmin ^ 4) / 2) *
      (0.34 - 0.14 * sqrt avp) * (1.35 * (sr / cs_rad) - 0.35)

/-- `net_lw_radiation` in the NaN-propagating semantics; the upstream
astronomical chain is NaN-free for real inputs (the arccos argument is
clamped), so only `sol_rad_from_t` can introduce a NaN. -/
def net_lw_radiation_nan (tmin tmax doy elevation lat : ℝ) : Option ℝ :=
  let avp := avp_from_tmin tmin
  let inv_esun_dist := inv_rel_dist_earth_sun doy
  let sol_decl := sol_dec doy
  let sunset_hr_ang := sunset_hour_angle lat sol_decl
  let ext_rad := et_rad lat sol_decl sunset_hr_ang inv_esun_dist
  let clear_sky_rad := cs_rad elevation ext_rad
  let solar_rad := sol_rad_from_t_nan ext_rad clear_sky_rad tmin tmax false
  net_out_lw_rad_nan tmin tmax solar_rad clear_sky_rad avp

/-- `get_net_radiation` in the NaN-propagating semantics: subtracting a NaN
longwave term from the (NaN-free) shortwave term yields NaN. -/
def get_net_radiation_nan (tmin tmax doy elevation lat albedo : ℝ) :
    Option ℝ :=
  (net_lw_radiation_nan tmin tmax doy elevation lat).map
    fun lw => net_sw_radiation elevation albedo doy lat - lw

end fao

namespace polygon_met

/-- Management depth [inches] (src/utils/polygon_met.py line 287). -/
def D : ℝ := 3.0

/-- National Engineering Handbook effective precipitation
(src/utils/polygon_met.py, `effective_precip`).  Inputs and output in mm;
the embedded coefficients work on inches. -/
def effective_precip (precip ref_et : ℝ) : ℝ :=
  let ppt := precip / 25.4
  let etc := ref_et / 25.4
  let sf := 0.531747 + 0.295164 * D - 0.057697 * D ^ 2 + 0.003804 * D ^ 3
  let eff_ppt :=
    sf * ((0.70917 * ppt) ^ (0.82416 : ℝ) - 0.11556) *
      (10 : ℝ) ^ (0.02426 * etc)
  let eff_ppt_mm := eff_ppt * 25.4
  eff_ppt_mm

end polygon_met

namespace wudr_analysis

/-- Management depth [inches] (src/met/utils/wudr_analysis.py line 504). -/
def D : ℝ := 3.0

/-- National Engineering Handbook effective precipitation
(src/met/utils/wudr_analysis.py, `effective_precip`). -/
def effective_precip (precip ref_et : ℝ) : ℝ :=
  let ppt := precip / 25.4
  let etc := ref_et / 25.4
  let sf := 0.531747 + 0.295164 * D - 0.057697 * D ^ 2 + 0.003804 * D ^ 3
  let eff_ppt :=
    sf * ((0.70917 * ppt) ^ (0.82416 : ℝ) - 0.11556) *
      (10 : ℝ) ^ (0.02426 * etc)
  let eff_ppt_mm := eff_ppt * 25.4
  eff_ppt_mm

end wudr_analysis

namespace agrimet

/-- Unit conversion applied to one cell of the column named `col` by the
conversion block of the Agrimet reformatting step (src/met/agrimet.py
lines 493-514): inches to mm, Fahrenheit to Celsius, mph to m/s, miles to
meters, and langleys to W/m2 for the solar radiation column. -/
def reformat_value (col : String) (x : ℝ) : ℝ :=
  let x1 := if col = "ET" ∨ col = "ETRS" ∨ col = "ETOS" ∨ col = "PC" ∨
      col = "PP" ∨ col = "PU" then x * 25.4 else x
  let x2 := if col = "MN" ∨ col = "MX" ∨ col = "MM" ∨ col = "YM" then
      (x1 - 32) * 5 / 9 else x1
  let x3 := if col = "UA" ∨ col = "WG" then x2 * 0.44704 else x2
  let x4 := if col = "WR" then x3 * 1609.34 else x3
  if col = "SR" then x4 / 23.900574 else x4

end agrimet

end

/-- Helper: the polygon_met effective precipitation in closed form, with
the depth coefficient evaluated at the module-level depth D = 3.0. -/
lemma effective_precip_eq (p e : ℝ) :
    polygon_met.effective_precip p e =
      1.000674 * ((0.70917 * (p / 25.4)) ^ (0.82416 : ℝ) - 0.11556) *
        (10 : ℝ) ^ (0.02426 * (e / 25.4)) * 25.4 := by
  simp only [polygon_met.effective_precip, polygon_met.D]
  norm_num

/-- C2: for every extraterrestrial radiation, elevation, temperature pair
with t_min ≤ t_max and both coastal flags, the estimated solar radiation
is at most the clear-sky radiation. -/
theorem C2_clear_sky_bound (Ra elevation tmin tmax : ℝ) (coastal : Bool)
    (h : tmin ≤ tmax) :
    fao.sol_rad_from_t Ra (fao.cs_rad elevation Ra) tmin tmax coastal ≤
      fao.cs_rad elevation Ra := by
  simp only [fao.sol_rad_from_t]
  exact min_le_right _ _

theorem C2_witness :
    fao.sol_rad_from_t 30 (fao.cs_rad 0 30) 10 20 false ≤ fao.cs_rad 0 30 :=
  C2_clear_sky_bound 30 0 10 20 false (by norm_num)

/-- C3: for latitude in [-π/2, π/2] and solar declination in [-0.41, 0.41]
the sunset hour angle is a well-defined value in [0, π] (the clamp keeps
the arccos argument inside its domain). -/
theorem C3_sunset_hour_angle_range (latitude decl : ℝ)
    (h1 : -(π / 2) ≤ latitude) (h2 : latitude ≤ π / 2)
    (h3 : -0.41 ≤ decl) (h4 : decl ≤ 0.41) :
    0 ≤ fao.sunset_hour_angle latitude decl ∧
      fao.sunset_hour_angle latitude decl ≤ π := by
  simp only [fao.sunset_hour_angle]
  exact ⟨Real.arccos_nonneg _, Real.arccos_le_pi _⟩

theorem C3_witness :
    0 ≤ fao.sunset_hour_angle 0 0 ∧ fao.sunset_hour_angle 0 0 ≤ π :=
  C3_sunset_hour_angle_range 0 0 (by nlinarith [Real.pi_pos])
    (by nlinarith [Real.pi_pos]) (by norm_num) (by norm_num)

/-- C4: with the management depth at its module-level default D = 3.0,
effective_precip equals the National Engineering Handbook closed form
(inputs converted to inches, result converted back to mm). -/
theorem C4_effective_precip_formula (precip ref_et : ℝ) :
    polygon_met.effective_precip precip ref_et =
      25.4 * ((0.531747 + 0.295164 * 3.0 - 0.057697 * (3.0 : ℝ) ^ 2 +
          0.003804 * (3.0 : ℝ) ^ 3) *
        ((0.70917 * (precip / 25.4)) ^ (0.82416 : ℝ) - 0.11556) *
        (10 : ℝ) ^ (0.02426 * (ref_et / 25.4))) := by
  rw [effective_precip_eq]
  ring_nf

/-- C5: for a fixed reference ET, the effective precipitation is
nondecreasing in the precipitation input on the nonnegative domain. -/
theorem C5_effective_precip_monotone (ref_et p1 p2 : ℝ)
    (h0 : 0 ≤ p1) (h12 : p1 ≤ p2) :
    polygon_met.effective_precip p1 ref_et ≤
      polygon_met.effective_precip p2 ref_et := by
  rw [effective_precip_eq, effective_precip_eq]
  have hA : (0.70917 * (p1 / 25.4)) ^ (0.82416 : ℝ) ≤
      (0.70917 * (p2 / 25.4)) ^ (0.82416 : ℝ) :=
    Real.rpow_le_rpow (mul_nonneg (by norm_num) (div_nonneg h0 (by norm_num)))
      (by gcongr) (by norm_num)
  have hB : (0 : ℝ) < (10 : ℝ) ^ (0.02426 * (ref_et / 25.4)) :=
    Real.rpow_pos_of_pos (by norm_num) _
  nlinarith [mul_le_mul_of_nonneg_right (sub_le_sub_right hA 0.11556) hB.le]

theorem C5_witness :
    polygon_met.effective_precip 0 0 ≤ polygon_met.effective_precip 25.4 0 :=
  C5_effective_precip_monotone 0 0 25.4 (le_refl 0) (by norm_num)

/-- C9: the two effective_precip implementations (src/utils/polygon_met.py
and src/met/utils/wudr_analysis.py) agree on every input; both use the
same formula and the same module-level depth D = 3.0. -/
theorem C9_effective_precip_equivalence (precip ref_et : ℝ) :
    polygon_met.effective_precip precip ref_et =
      wudr_analysis.effective_precip precip ref_et := rfl

/-- C8: the Agrimet reformatting step converts the solar radiation column
SR from langleys to W/m2 by dividing by 23.900574. -/
theorem C8_langley_conversion (x : ℝ) :
    agrimet.reformat_value "SR" x = x / 23.900574 := by
  simp [agrimet.reformat_value]

/-- C7: whenever t_max < t_min, the square root inside sol_rad_from_t is
taken of a negative number, producing a NaN (modelled by `none`) that
propagates through net_lw_radiation and get_net_radiation: the chain
raises no exception and the net-radiation result is NaN, not zero. -/
theorem C7_nan_propagation (tmin tmax doy elevation lat albedo : ℝ)
    (h : tmax < tmin) :
    fao.net_lw_radiation_nan tmin tmax doy elevation lat = none ∧
      fao.get_net_radiation_nan tmin tmax doy elevation lat albedo = none := by
  have hs : fao.nan_sqrt (tmax - tmin) = none := by
    simp [fao.nan_sqrt, sub_neg.mpr h]
  constructor <;>
    simp [fao.get_net_radiation_nan, fao.net_lw_radiation_nan,
      fao.sol_rad_from_t_nan, fao.net_out_lw_rad_nan, hs]

theorem C7_witness :
    fao.net_lw_radiation_nan 300 299 80 0 0 = none ∧
      fao.get_net_radiation_nan 300 299 80 0 0 0.23 = none :=
  C7_nan_propagation 300 299 80 0 0 0.23 (by norm_num)

/-- C6: at precip = 50 mm and ref_et = 150 mm with the module-level depth
D = 3.0, the effective precipitation (a pure function of its arguments) is
strictly positive and strictly below the 50 mm input. -/
theorem C6_effective_precip_bounds :
    0 < polygon_met.effective_precip 50 150 ∧
      polygon_met.effective_precip 50 150 < 50 := by
  rw [effective_precip_eq]
  have hbase : (1 : ℝ) ≤ 0.70917 * ((50 : ℝ) / 25.4) := by norm_num
  have hA1 : (1 : ℝ) ≤ (0.70917 * ((50 : ℝ) / 25.4)) ^ (0.82416 : ℝ) := by
    calc (1 : ℝ) = (0.70917 * ((50 : ℝ) / 25.4)) ^ (0 : ℝ) :=
          (Real.rpow_zero _).symm
    _ ≤ _ := Real.rpow_le_rpow_of_exponent_le hbase (by norm_num)
  have hA2 : (0.70917 * ((50 : ℝ) / 25.4)) ^ (0.82416 : ℝ) ≤
      0.70917 * ((50 : ℝ) / 25.4) := by
    calc (0.70917 * ((50 : ℝ) / 25.4)) ^ (0.82416 : ℝ) ≤
          (0.70917 * ((50 : ℝ) / 25.4)) ^ (1 : ℝ) :=
        Real.rpow_le_rpow_of_exponent_le hbase (by norm_num)
    _ = _ := Real.rpow_one _
  have hB0 : (0 : ℝ) < (10 : ℝ) ^ (0.02426 * ((150 : ℝ) / 25.4)) :=
    Real.rpow_pos_of_pos (by norm_num) _
  have hB1 : (10 : ℝ) ^ (0.02426 * ((150 : ℝ) / 25.4)) ≤ 3 / 2 := by
    have h1 : (10 : ℝ) ^ (0.02426 * ((150 : ℝ) / 25.4)) ≤
        (10 : ℝ) ^ ((6 : ℝ)⁻¹) :=
      Real.rpow_le_rpow_of_exponent_le (by norm_num) (by norm_num)
    have h2 : (10 : ℝ) ^ ((6 : ℝ)⁻¹) ≤ 3 / 2 := by
      have h6 : ((10 : ℝ) ^ ((6 : ℝ)⁻¹)) ^ (6 : ℕ) = 10 := by
        rw [← Real.rpow_natCast ((10 : ℝ) ^ ((6 : ℝ)⁻¹)) 6,
          ← Real.rpow_mul (by norm_num : (0 : ℝ) ≤ 10)]
        norm_num
      by_contra hc
      push_neg at hc
      have h7 := pow_lt_pow_left₀ hc (by norm_num : (0 : ℝ) ≤ 3 / 2)
        (by norm_num : (6 : ℕ) ≠ 0)
      rw [h6] at h7
      norm_num at h7
    exact h1.trans h2
  have hpos : (0 : ℝ) <
      (0.70917 * ((50 : ℝ) / 25.4)) ^ (0.82416 : ℝ) - 0.11556 := by
    nlinarith [hA1]
  constructor
  · exact mul_pos (mul_pos (mul_pos (by norm_num) hpos) hB0) (by norm_num)
  · nlinarith [mul_le_mul (sub_le_sub_right hA2 0.11556) hB1 hB0.le
      (by norm_num : (0 : ℝ) ≤ 0.70917 * ((50 : ℝ) / 25.4) - 0.11556)]

/-- Helper: `net_lw_radiation` factors into the Stefan-Boltzmann-humidity
product and the cloudiness factor computed from the capped solar-radiation
estimate (pure unfolding of the source chain). -/
lemma net_lw_radiation_factored (tmin tmax doy elevation lat : ℝ) :
    fao.net_lw_radiation tmin tmax doy elevation lat =
      fao.lw_stefan_humidity tmin tmax (fao.avp_from_tmin tmin) *
        fao.lw_cloud_factor
          (fao.sol_rad_from_t (fao.extraterrestrial_radiation lat doy)
            (fao.cs_rad elevation (fao.extraterrestrial_radiation lat doy))
            tmin tmax false)
          (fao.cs_rad elevation (fao.extraterrestrial_radiation lat doy)) := rfl

/-- Helper: at latitude 0 the clamped sunset-hour cosine is 0, so the
extraterrestrial radiation reduces to (1440/pi) * solar constant * ird *
cos(declination). -/
lemma extraterrestrial_radiation_equator (doy : ℝ) :
    fao.extraterrestrial_radiation 0 doy =
      24 * 60 / π * fao.SOLAR_CONSTANT * fao.inv_rel_dist_earth_sun doy *
        cos (fao.sol_dec doy) := by
  simp only [fao.extraterrestrial_radiation, fao.et_rad, fao.sunset_hour_angle,
    Real.tan_zero, neg_zero, zero_mul]
  norm_num [max_def, min_def, Real.arccos_zero, Real.sin_pi_div_two]

/-- Helper: the solar declination always lies in [-0.409, 0.409]. -/
lemma sol_dec_abs_le (doy : ℝ) : |fao.sol_dec doy| ≤ 0.409 := by
  simp only [fao.sol_dec, abs_mul]
  have h1 : |sin ((2.0 * π / 365.0) * doy - 1.39)| ≤ 1 := Real.abs_sin_le_one _
  have h2 : |(0.409 : ℝ)| = 0.409 := by norm_num
  nlinarith [abs_nonneg (sin ((2.0 * π / 365.0) * doy - 1.39))]

/-- Helper: the inverse earth-sun distance lies in [0.967, 1.033]. -/
lemma inv_rel_dist_bounds (doy : ℝ) :
    0.967 ≤ fao.inv_rel_dist_earth_sun doy ∧
      fao.inv_rel_dist_earth_sun doy ≤ 1.033 := by
  simp only [fao.inv_rel_dist_earth_sun]
  constructor
  · nlinarith [Real.neg_one_le_cos ((2.0 * π / 365.0) * doy)]
  · nlinarith [Real.cos_le_one ((2.0 * π / 365.0) * doy)]

/-- Helper: extraterrestrial radiation at the equator is positive on every
day of the year. -/
lemma extraterrestrial_radiation_equator_pos (doy : ℝ) :
    0 < fao.extraterrestrial_radiation 0 doy := by
  rw [extraterrestrial_radiation_equator]
  have hδ := sol_dec_abs_le doy
  have habs := abs_le.mp hδ
  have hcos : 0 < cos (fao.sol_dec doy) := by
    apply Real.cos_pos_of_mem_Ioo
    constructor
    · have := Real.pi_gt_three
      linarith [habs.1]
    · have := Real.pi_gt_three
      linarith [habs.2]
  have hird := (inv_rel_dist_bounds doy).1
  have hconst : 0 < 24 * 60 / π * fao.SOLAR_CONSTANT := by
    simp only [fao.SOLAR_CONSTANT]
    positivity
  have : 0 < 24 * 60 / π * fao.SOLAR_CONSTANT * fao.inv_rel_dist_earth_sun doy :=
    mul_pos hconst (by linarith)
  exact mul_pos this hcos

/-- C10 (amended): with t_min ≤ t_max and positive clear-sky radiation the
cloudiness factor inside net_out_lw_rad is at most 1.0 (the solar estimate
is capped at clear-sky); consequently, whenever the Stefan-Boltzmann term
times the humidity factor is nonnegative, the net outgoing longwave
radiation does not exceed that product. -/
theorem C10_cloud_factor_amended (tmin tmax doy elevation lat : ℝ)
    (h1 : tmin ≤ tmax)
    (h2 : 0 < fao.cs_rad elevation (fao.extraterrestrial_radiation lat doy)) :
    fao.lw_cloud_factor
        (fao.sol_rad_from_t (fao.extraterrestrial_radiation lat doy)
          (fao.cs_rad elevation (fao.extraterrestrial_radiation lat doy))
          tmin tmax false)
        (fao.cs_rad elevation (fao.extraterrestrial_radiation lat doy)) ≤ 1 ∧
      (0 ≤ fao.lw_stefan_humidity tmin tmax (fao.avp_from_tmin tmin) →
        fao.net_lw_radiation tmin tmax doy elevation lat ≤
          fao.lw_stefan_humidity tmin tmax (fao.avp_from_tmin tmin)) := by
  have hs : fao.sol_rad_from_t (fao.extraterrestrial_radiation lat doy)
      (fao.cs_rad elevation (fao.extraterrestrial_radiation lat doy))
      tmin tmax false ≤
      fao.cs_rad elevation (fao.extraterrestrial_radiation lat doy) := by
    simp only [fao.sol_rad_from_t]
    exact min_le_right _ _
  have hratio : fao.sol_rad_from_t (fao.extraterrestrial_radiation lat doy)
      (fao.cs_rad elevation (fao.extraterrestrial_radiation lat doy))
      tmin tmax false /
      fao.cs_rad elevation (fao.extraterrestrial_radiation lat doy) ≤ 1 :=
    (div_le_one h2).mpr hs
  have hfac : fao.lw_cloud_factor
      (fao.sol_rad_from_t (fao.extraterrestrial_radiation lat doy)
        (fao.cs_rad elevation (fao.extraterrestrial_radiation lat doy))
        tmin tmax false)
      (fao.cs_rad elevation (fao.extraterrestrial_radiation lat doy)) ≤ 1 := by
    simp only [fao.lw_cloud_factor]
    nlinarith [hratio]
  refine ⟨hfac, fun hsh => ?_⟩
  rw [net_lw_radiation_factored]
  exact mul_le_of_le_one_right hsh hfac

theorem C10_witness :
    fao.lw_cloud_factor
        (fao.sol_rad_from_t (fao.extraterrestrial_radiation 0 80)
          (fao.cs_rad 0 (fao.extraterrestrial_radiation 0 80)) 280 290 false)
        (fao.cs_rad 0 (fao.extraterrestrial_radiation 0 80)) ≤ 1 ∧
      (0 ≤ fao.lw_stefan_humidity 280 290 (fao.avp_from_tmin 280) →
        fao.net_lw_radiation 280 290 80 0 0 ≤
          fao.lw_stefan_humidity 280 290 (fao.avp_from_tmin 280)) :=
  C10_cloud_factor_amended 280 290 80 0 0 (by norm_num)
    (by simp only [fao.cs_rad]
        nlinarith [extraterrestrial_radiation_equator_pos 80])

/-- C10 (counterexample): at tmin = 320 K, tmax = 320.5 K, doy = 80,
elevation = 0, latitude = 0 the hypotheses of the claim hold, yet the net
outgoing longwave radiation strictly exceeds the Stefan-Boltzmann term
times the humidity factor, because the humidity factor is negative for
such a hot minimum temperature while the cloudiness factor is below 1. -/
theorem C10_counterexample :
    (320 : ℝ) ≤ 320.5 ∧
      0 < fao.cs_rad 0 (fao.extraterrestrial_radiation 0 80) ∧
      fao.lw_stefan_humidity 320 320.5 (fao.avp_from_tmin 320) <
        fao.net_lw_radiation 320 320.5 80 0 0 := by
  have hRa : 0 < fao.extraterrestrial_radiation 0 80 :=
    extraterrestrial_radiation_equator_pos 80
  have hcsr : fao.cs_rad 0 (fao.extraterrestrial_radiation 0 80) =
      0.75 * fao.extraterrestrial_radiation 0 80 := by
    simp only [fao.cs_rad]; ring
  have hcsr_pos : 0 < fao.cs_rad 0 (fao.extraterrestrial_radiation 0 80) := by
    rw [hcsr]; nlinarith
  refine ⟨by norm_num, hcsr_pos, ?_⟩
  rw [net_lw_radiation_factored]
  -- the humidity factor is negative at tmin = 320 K
  have harg : (17.27 * ((320 : ℝ) - 273.15)) / (((320 : ℝ) - 273.15) + 237.3) =
      809.0995 / 284.15 := by norm_num
  have hexp : ((809.0995 / 284.15 : ℝ) / 8 + 1) ^ (8 : ℕ) ≤
      exp (809.0995 / 284.15) := by
    have h8 : ((8 : ℕ) : ℝ) * ((809.0995 / 284.15 : ℝ) / 8) =
        809.0995 / 284.15 := by push_cast; ring
    calc ((809.0995 / 284.15 : ℝ) / 8 + 1) ^ (8 : ℕ) ≤
        exp ((809.0995 / 284.15 : ℝ) / 8) ^ (8 : ℕ) :=
          pow_le_pow_left₀ (by norm_num) (Real.add_one_le_exp _) 8
    _ = exp (((8 : ℕ) : ℝ) * ((809.0995 / 284.15 : ℝ) / 8)) :=
          (Real.exp_nat_mul _ 8).symm
    _ = exp (809.0995 / 284.15) := by rw [h8]
  have havp : ((17 : ℝ) / 7) ^ 2 < fao.avp_from_tmin 320 := by
    simp only [fao.avp_from_tmin]
    rw [harg]
    nlinarith [hexp, Real.exp_pos ((809.0995 / 284.15 : ℝ))]
  have hsqrt_avp : (17 : ℝ) / 7 < sqrt (fao.avp_from_tmin 320) :=
    (Real.lt_sqrt (by norm_num)).mpr havp
  have hSH : fao.lw_stefan_humidity 320 320.5 (fao.avp_from_tmin 320) < 0 := by
    simp only [fao.lw_stefan_humidity, fao.STEFAN_BOLTZMANN_CONSTANT]
    have htmp2 : 0.34 - 0.14 * sqrt (fao.avp_from_tmin 320) < 0 := by
      nlinarith [hsqrt_avp]
    apply mul_neg_of_pos_of_neg _ htmp2
    norm_num
  -- the cloudiness factor is strictly below 1
  have hsqrt1 : sqrt ((320.5 : ℝ) - 320) < 1 := by
    rw [show (320.5 : ℝ) - 320 = 0.5 by norm_num]
    exact (Real.sqrt_lt' one_pos).mpr (by norm_num)
  have hsr_le : fao.sol_rad_from_t (fao.extraterrestrial_radiation 0 80)
      (fao.cs_rad 0 (fao.extraterrestrial_radiation 0 80)) 320 320.5 false ≤
      0.16 * sqrt ((320.5 : ℝ) - 320) * fao.extraterrestrial_radiation 0 80 := by
    simp only [fao.sol_rad_from_t, Bool.false_eq_true, if_false]
    exact min_le_left _ _
  have hsr_lt : fao.sol_rad_from_t (fao.extraterrestrial_radiation 0 80)
      (fao.cs_rad 0 (fao.extraterrestrial_radiation 0 80)) 320 320.5 false <
      fao.cs_rad 0 (fao.extraterrestrial_radiation 0 80) := by
    apply lt_of_le_of_lt hsr_le
    rw [hcsr]
    nlinarith [mul_lt_mul_of_pos_right hsqrt1 hRa,
      mul_nonneg (Real.sqrt_nonneg ((320.5 : ℝ) - 320)) hRa.le]
  have hratio : fao.sol_rad_from_t (fao.extraterrestrial_radiation 0 80)
      (fao.cs_rad 0 (fao.extraterrestrial_radiation 0 80)) 320 320.5 false /
      fao.cs_rad 0 (fao.extraterrestrial_radiation 0 80) < 1 :=
    (div_lt_one hcsr_pos).mpr hsr_lt
  have hCF : fao.lw_cloud_factor
      (fao.sol_rad_from_t (fao.extraterrestrial_radiation 0 80)
        (fao.cs_rad 0 (fao.extraterrestrial_radiation 0 80)) 320 320.5 false)
      (fao.cs_rad 0 (fao.extraterrestrial_radiation 0 80)) < 1 := by
    simp only [fao.lw_cloud_factor]
    nlinarith [hratio]
  nlinarith [mul_pos_of_neg_of_neg hSH (by linarith : fao.lw_cloud_factor
    (fao.sol_rad_from_t (fao.extraterrestrial_radiation 0 80)
      (fao.cs_rad 0 (fao.extraterrestrial_radiation 0 80)) 320 320.5 false)
    (fao.cs_rad 0 (fao.extraterrestrial_radiation 0 80)) - 1 < 0)]

set_option maxHeartbeats 1600000 in
/-- Helper: two-sided bounds on the extraterrestrial radiation at the
equator on day 80: it lies in [37.7, 37.9] MJ m-2 day-1. -/
lemma Ra80_bounds :
    37.7 ≤ fao.extraterrestrial_radiation 0 80 ∧
      fao.extraterrestrial_radiation 0 80 ≤ 37.9 := by
  rw [extraterrestrial_radiation_equator]
  have hpi1 : (3.141592 : ℝ) < π := Real.pi_gt_d6
  have hpi2 : π < 3.141593 := Real.pi_lt_d6
  -- bounds on the day-angle 160 pi / 365
  have hb1 : (1.3771362 : ℝ) ≤ 2.0 * π / 365.0 * 80 := by nlinarith
  have hb2 : 2.0 * π / 365.0 * 80 ≤ 1.3771367 := by nlinarith
  -- declination: the sine argument is tiny, so the declination is tiny
  have ha1 : (-0.0128638 : ℝ) ≤ 2.0 * π / 365.0 * 80 - 1.39 := by linarith
  have ha2 : 2.0 * π / 365.0 * 80 - 1.39 ≤ -0.0128633 := by linarith
  have haabs : |2.0 * π / 365.0 * 80 - 1.39| ≤ 0.0128638 :=
    abs_le.mpr ⟨ha1, by linarith⟩
  have hsa : |sin (2.0 * π / 365.0 * 80 - 1.39)| ≤ 0.0128638 :=
    Real.abs_sin_le_abs.trans haabs
  have hδ : |fao.sol_dec 80| ≤ 0.0052614 := by
    simp only [fao.sol_dec]
    rw [abs_mul, show |(0.409 : ℝ)| = 0.409 by norm_num]
    nlinarith [hsa, abs_nonneg (sin (2.0 * π / 365.0 * 80 - 1.39))]
  have hδ2 := abs_le.mp hδ
  have hcosδ1 : (0.9999 : ℝ) ≤ cos (fao.sol_dec 80) := by
    have h := Real.one_sub_sq_div_two_le_cos (x := fao.sol_dec 80)
    nlinarith [h, hδ2.1, hδ2.2]
  have hcosδ2 : cos (fao.sol_dec 80) ≤ 1 := Real.cos_le_one _
  -- inverse-distance factor via the half angle
  have hx0 : (0 : ℝ) ≤ 2.0 * π / 365.0 * 80 / 2 := by positivity
  have hx1 : (0.6885681 : ℝ) ≤ 2.0 * π / 365.0 * 80 / 2 := by linarith
  have hx2 : 2.0 * π / 365.0 * 80 / 2 ≤ 0.6885684 := by linarith
  have hxabs : |2.0 * π / 365.0 * 80 / 2| ≤ 1 :=
    abs_le.mpr ⟨by linarith, by linarith⟩
  have hcb := Real.cos_bound hxabs
  rw [abs_of_nonneg hx0] at hcb
  have hcbounds := abs_le.mp hcb
  have hsq1 : (2.0 * π / 365.0 * 80 / 2) ^ 2 ≤ 0.6885684 ^ 2 := by nlinarith
  have hsq2 : (0.6885681 : ℝ) ^ 2 ≤ (2.0 * π / 365.0 * 80 / 2) ^ 2 := by
    nlinarith
  have hq1 : (2.0 * π / 365.0 * 80 / 2) ^ 4 ≤ 0.6885684 ^ 4 := by
    nlinarith [hsq1, sq_nonneg (2.0 * π / 365.0 * 80 / 2)]
  have hc1 : (0.7512 : ℝ) ≤ cos (2.0 * π / 365.0 * 80 / 2) := by
    nlinarith [hcbounds.1, hsq1, hq1]
  have hc2 : cos (2.0 * π / 365.0 * 80 / 2) ≤ 0.7747 := by
    nlinarith [hcbounds.2, hsq2, hq1]
  have hsplit : (2.0 * π / 365.0) * (80 : ℝ) =
      2 * (2.0 * π / 365.0 * 80 / 2) := by ring
  have hcosb1 : (0.128 : ℝ) ≤ cos ((2.0 * π / 365.0) * (80 : ℝ)) := by
    rw [hsplit, Real.cos_two_mul]
    nlinarith [hc1, hc2]
  have hcosb2 : cos ((2.0 * π / 365.0) * (80 : ℝ)) ≤ 0.2004 := by
    rw [hsplit, Real.cos_two_mul]
    nlinarith [hc1, hc2]
  have hird1 : (1.0042 : ℝ) ≤ fao.inv_rel_dist_earth_sun 80 := by
    simp only [fao.inv_rel_dist_earth_sun]
    nlinarith [hcosb1]
  have hird2 : fao.inv_rel_dist_earth_sun 80 ≤ 1.0067 := by
    simp only [fao.inv_rel_dist_earth_sun]
    nlinarith [hcosb2]
  -- the 1440 / pi factor
  have hK1 : (458.366 : ℝ) ≤ 24 * 60 / π := by
    rw [le_div_iff₀ Real.pi_pos]
    nlinarith
  have hK2 : 24 * 60 / π ≤ 458.367 := by
    rw [div_le_iff₀ Real.pi_pos]
    nlinarith
  simp only [fao.SOLAR_CONSTANT]
  have hKc1 : (37.586 : ℝ) ≤ 24 * 60 / π * 0.0820 := by nlinarith
  have hKc2 : 24 * 60 / π * 0.0820 ≤ 37.5861 := by nlinarith
  have hKI1 : (37.743 : ℝ) ≤
      24 * 60 / π * 0.0820 * fao.inv_rel_dist_earth_sun 80 := by
    nlinarith [hKc1, hird1]
  have hKI2 : 24 * 60 / π * 0.0820 * fao.inv_rel_dist_earth_sun 80 ≤
      37.838 := by
    nlinarith [hKc1, hKc2, hird1, hird2]
  constructor
  · nlinarith [hKI1, hcosδ1, hcosδ2]
  · nlinarith [hKI1, hKI2, hcosδ1, hcosδ2]

/-- C1 (counterexample): at latitude 0 and day 80 the composed
extraterrestrial radiation is about 37.8 MJ m-2 day-1, hence NOT inside
the interval [14.7, 15.7] the claim asserts. -/
theorem C1_counterexample :
    ¬ (14.7 ≤ fao.extraterrestrial_radiation 0 80 ∧
        fao.extraterrestrial_radiation 0 80 ≤ 15.7) := by
  intro h
  linarith [Ra80_bounds.1, h.2]

/-- C1 (amended): at latitude 0 and day 80 the composed extraterrestrial
radiation, expressed as equivalent evaporation by the FAO-56 conversion
factor 0.408 (eq. 20), lies within 0.5 of 15.2, i.e. in [14.7, 15.7]. -/
theorem C1_extraterrestrial_regression_amended :
    14.7 ≤ 0.408 * fao.extraterrestrial_radiation 0 80 ∧
      0.408 * fao.extraterrestrial_radiation 0 80 ≤ 15.7 := by
  constructor <;> nlinarith [Ra80_bounds.1, Ra80_bounds.2]
